import Mathlib

/-!
Shallow embedding of `src/SateliteVisualizer.py` (a NASA-EONET / OpenWeatherMap
visualizer script).  Python floats are modelled as `ℚ` (the script only compares
and averages them), Python exceptions as an explicit `Except` layer, and the
`print` diagnostics as a list of structured log messages whose constructors
carry exactly the data interpolated into the corresponding f-string.
-/

namespace SatViz

/-- Python exception values that the script can raise or catch.
`requests.exceptions.RequestException` carries the message text; the shape
errors (`AttributeError`, `IndexError`, `TypeError`) arise from `.get` on a
non-dict, out-of-range `[0]`, and indexing a non-list; `osError` models an
`OSError` raised by a file write (`m.save` / `fig.write_html`). -/
inductive PyErr where
  | requestException (msg : String)
  | attributeError
  | indexError
  | typeError
  | osError (msg : String)
  deriving DecidableEq, Repr

/-- The text Python would render for the exception in an f-string `{e}`. -/
def errName : PyErr → String
  | .requestException m => m
  | .attributeError => "AttributeError"
  | .indexError => "IndexError"
  | .typeError => "TypeError"
  | .osError m => m

/-- One `print` diagnostic of the script.  Each constructor corresponds to one
print statement and carries the values interpolated into it (so a message
"includes the queried coordinate" iff its constructor carries that coordinate):
* `errorFetchingSat` — line 52: Error fetching satellite data
* `unexpectedSatError` — line 55: Unexpected error processing satellite data
* `noEonetEvents` — line 48: No events found in EONET API response
* `weatherApiError` — line 78: Weather API error for (lat, lon) — has coords
* `unexpectedWeatherError` — line 81: Unexpected weather processing error — no coords
* `noEventsMap` — line 87, `mapSaved` — line 131
* `noEventsChart` — line 136, `chartSaved` — line 166
* `foundEvents` — line 175, `noActiveEvents` — line 181. -/
inductive LogMsg where
  | errorFetchingSat (msg : String)
  | unexpectedSatError (msg : String)
  | noEonetEvents
  | weatherApiError (lat lon : ℚ) (msg : String)
  | unexpectedWeatherError (msg : String)
  | noEventsMap
  | mapSaved
  | noEventsChart
  | chartSaved
  | foundEvents (n : Nat)
  | noActiveEvents
  deriving DecidableEq, Repr

/-! ## Event source adapter (`fetch_satellite_data`, lines 16-56) -/

/-- One element of an event's `geometries`/`geometry` JSON list: a coordinate
list and an optional `date` field.  (The script reads nothing else from it.) -/
structure Geometry where
  coordinates : List ℚ
  date : Option String
  deriving DecidableEq, Repr

/-- One raw EONET event object, restricted to the fields the script reads:
`title`, the list of category titles (`categories[i]['title']`), the plural
`geometries` field (`[]` when the key is absent, matching
`event.get('geometries', [])`) and the singular `geometry` field (`none` when
the key is absent, so that the default `[{}]` of line 42 applies). -/
structure RawEvent where
  title : String
  categories : List String
  geometries : List Geometry
  geometry : Option (List Geometry)
  deriving DecidableEq, Repr

/-- One row of the DataFrame built on lines 37-43. -/
structure EventRecord where
  title : String
  category : String
  longitude : ℚ
  latitude : ℚ
  date : String
  deriving DecidableEq, Repr

/-- Line 29: `event.get('geometries', []) or event.get('geometry', [])` —
the plural field when it is truthy (non-empty), else the singular one. -/
def effectiveGeometries (e : RawEvent) : List Geometry :=
  if e.geometries.isEmpty then e.geometry.getD [] else e.geometries

/-- Line 34: `coords[0] if abs(coords[0]) <= 180 else coords[1]`. -/
def correctedLongitude (c0 c1 : ℚ) : ℚ :=
  if |c0| ≤ 180 then c0 else c1

/-- Line 35: `coords[1] if abs(coords[1]) <= 90 else coords[0]`. -/
def correctedLatitude (c0 c1 : ℚ) : ℚ :=
  if |c1| ≤ 90 then c1 else c0

/-- Line 42: `event.get('geometry', [{}])[0].get('date', 'Unknown')`.
Key absent → default `[{}]`, whose element `{}` has no date → `"Unknown"`;
key present but an empty list → `[0]` raises `IndexError`;
otherwise the first element's date, defaulting to `"Unknown"`. -/
def extractDate (e : RawEvent) : Except PyErr String :=
  match e.geometry with
  | none => .ok "Unknown"
  | some [] => .error .indexError
  | some (g :: _) => .ok (g.date.getD "Unknown")

/-- Lines 28-43, one iteration of the `for event in data['events']` loop:
`none` when the event is skipped (no geometry, or fewer than two
coordinates), `some r` when a row is appended, `error` when the body raises. -/
def processEvent (e : RawEvent) : Except PyErr (Option EventRecord) :=
  match effectiveGeometries e with
  | [] => .ok none
  | g :: _ =>
    match g.coordinates with
    | c0 :: c1 :: _ =>
      match extractDate e with
      | .error err => .error err
      | .ok d =>
          .ok (some { title := e.title,
                      category := (e.categories.head?).getD "Unknown",
                      longitude := correctedLongitude c0 c1,
                      latitude := correctedLatitude c0 c1,
                      date := d })
    | _ => .ok none

/-- The whole `for event in data['events']` loop (lines 26-43): rows of the
kept events in encounter order; the first raised exception aborts the loop. -/
def processEvents : List RawEvent → Except PyErr (List EventRecord)
  | [] => .ok []
  | e :: rest =>
    match processEvent e with
    | .error err => .error err
    | .ok none => processEvents rest
    | .ok (some r0) =>
      match processEvents rest with
      | .error err => .error err
      | .ok l => .ok (r0 :: l)

/-- The query parameters of one `requests.get(EONET_API, ...)` call (line 21). -/
structure SatRequest where
  status : String
  limit : Nat
  deriving DecidableEq, Repr

/-- Outcome of one EONET HTTP round trip, as seen after
`raise_for_status()`/`json()`: either a `RequestException` or the parsed
`data['events']` list. -/
inductive FetchResp where
  | transportError (msg : String)
  | ok (events : List RawEvent)

/-- The `for status in ["open", "all"]` loop (lines 20-46), inside the `try`:
returns the requests issued (each with `limit = 50`) together with either the
first raised exception, `some events` on the first status whose processed
event list is non-empty, or `none` when every status yielded nothing. -/
def satLoop (resp : String → FetchResp) : List String → List SatRequest × Except PyErr (Option (List EventRecord))
  | [] => ([], .ok none)
  | s :: rest =>
    match resp s with
    | .transportError m => ([⟨s, 50⟩], .error (.requestException m))
    | .ok raws =>
      if raws.isEmpty then
        (⟨s, 50⟩ :: (satLoop resp rest).1, (satLoop resp rest).2)
      else
        match processEvents raws with
        | .error err => ([⟨s, 50⟩], .error err)
        | .ok evts =>
          if evts.isEmpty then
            (⟨s, 50⟩ :: (satLoop resp rest).1, (satLoop resp rest).2)
          else ([⟨s, 50⟩], .ok (some evts))

/-- Result of `fetch_satellite_data`: the returned DataFrame rows, the printed
diagnostics, and the HTTP requests that were issued. -/
structure SatResult where
  events : List EventRecord
  logs : List LogMsg
  requests : List SatRequest
  deriving Repr

/-- `fetch_satellite_data` (lines 16-56): the status loop wrapped in
`try/except RequestException/except Exception`, each handler returning an
empty DataFrame after printing its diagnostic. -/
def fetch_satellite_data (resp : String → FetchResp) : SatResult :=
  match satLoop resp ["open", "all"] with
  | (reqs, .ok (some evts)) => ⟨evts, [], reqs⟩
  | (reqs, .ok none) => ⟨[], [.noEonetEvents], reqs⟩
  | (reqs, .error (.requestException m)) => ⟨[], [.errorFetchingSat m], reqs⟩
  | (reqs, .error err) => ⟨[], [.unexpectedSatError (errName err)], reqs⟩

/-- An event the loop considers at all: truthy `geometries or geometry`. -/
def hasGeometry (e : RawEvent) : Bool :=
  !(effectiveGeometries e).isEmpty

/-- An event that actually yields a row: non-empty effective geometry list
whose first geometry has at least two coordinates (line 33's guard). -/
def hasUsableGeometry (e : RawEvent) : Bool :=
  match effectiveGeometries e with
  | [] => false
  | g :: _ => decide (2 ≤ g.coordinates.length)

/-- The date line 42 stores on the non-raising paths: taken from the singular
`geometry` field only; `"Unknown"` when that key is absent or carries no date. -/
def dateOf (e : RawEvent) : String :=
  match e.geometry with
  | some (g :: _) => g.date.getD "Unknown"
  | _ => "Unknown"

/-! ## Location enrichment adapter (`fetch_weather_data`, lines 58-82) -/

/-- A parsed JSON / Python value, as far as the script manipulates one. -/
inductive PyVal where
  | num (q : ℚ)
  | str (s : String)
  | list (xs : List PyVal)
  | dict (fields : List (String × PyVal))

/-- Python `v.get(k, d)`: the field when `v` is a dict that has it, the
default when the key is absent, `AttributeError` when `v` is not a dict. -/
def pyGet (v : PyVal) (k : String) (d : PyVal) : Except PyErr PyVal :=
  match v with
  | .dict fs =>
    match fs.lookup k with
    | some x => .ok x
    | none => .ok d
  | _ => .error .attributeError

/-- Python `v[i]` on a supposed list: `IndexError` when out of range,
`TypeError` when `v` is not a list. -/
def pyIndex (v : PyVal) (i : Nat) : Except PyErr PyVal :=
  match v with
  | .list xs =>
    match xs[i]? with
    | some x => .ok x
    | none => .error .indexError
  | _ => .error .typeError

/-- Line 14. -/
def WEATHER_API_KEY : String := "YOUR_API_KEY_HERE"

/-- The arguments of the `requests.get(WEATHER_API, params=params, timeout=10)`
call (lines 61-67). -/
structure WeatherRequest where
  lat : ℚ
  lon : ℚ
  appid : String
  units : String
  timeout : Nat
  deriving DecidableEq, Repr

/-- The request `fetch_weather_data(lat, lon)` issues. -/
def weatherRequestFor (lat lon : ℚ) : WeatherRequest :=
  ⟨lat, lon, WEATHER_API_KEY, "metric", 10⟩

/-- The dict returned on lines 71-76. -/
structure WeatherSnapshot where
  temperature : PyVal
  humidity : PyVal
  weather : PyVal
  wind_speed : PyVal

/-- The `"N/A"` sentinel used as the `.get` default on lines 72-75. -/
def naStr : PyVal := .str "N/A"

/-- Lines 71-76, the construction of the returned dict from the parsed JSON
body, with Python's left-to-right evaluation of the nested `.get` chains:
any shape error (non-dict where a dict is expected, empty `weather` list)
raises instead of producing a snapshot. -/
def weatherBody (data : PyVal) : Except PyErr WeatherSnapshot := do
  let m1 ← pyGet data "main" (.dict [])
  let temp ← pyGet m1 "temp" naStr
  let m2 ← pyGet data "main" (.dict [])
  let humidity ← pyGet m2 "humidity" naStr
  let wl ← pyGet data "weather" (.list [.dict []])
  let w0 ← pyIndex wl 0
  let desc ← pyGet w0 "description" naStr
  let wd ← pyGet data "wind" (.dict [])
  let speed ← pyGet wd "speed" naStr
  .ok ⟨temp, humidity, desc, speed⟩

/-- Outcome of one weather HTTP round trip, as seen after
`raise_for_status()`/`json()`: `RequestException` or the parsed JSON body. -/
inductive WeatherResp where
  | transportError (msg : String)
  | ok (body : PyVal)

/-- `fetch_weather_data` (lines 58-82): `None` plus a diagnostic on failure —
the `RequestException` handler's message carries `(lat, lon)` (line 78), the
generic `Exception` handler's does not (line 81). -/
def fetch_weather_data (wresp : ℚ → ℚ → WeatherResp) (lat lon : ℚ) :
    Option WeatherSnapshot × List LogMsg :=
  match wresp lat lon with
  | .transportError m => (none, [.weatherApiError lat lon m])
  | .ok data =>
    match weatherBody data with
    | .ok snap => (some snap, [])
    | .error (.requestException m) => (none, [.weatherApiError lat lon m])
    | .error err => (none, [.unexpectedWeatherError (errName err)])

/-- Whether a printed diagnostic includes the queried coordinate, i.e. whether
its constructor carries that `(lat, lon)` pair. -/
def mentionsCoord (m : LogMsg) (lat lon : ℚ) : Bool :=
  match m with
  | .weatherApiError a b _ => decide (a = lat) && decide (b = lon)
  | _ => false

/-- `[(k, x)]` when the optional field is present, `[]` when it is absent. -/
def optField (k : String) (v : Option PyVal) : List (String × PyVal) :=
  match v with
  | some x => [(k, x)]
  | none => []

/-- A well-shaped weather JSON body in which each of the four read leaf fields
is independently present or absent. -/
def mkWeatherPayload (temp humidity desc speed : Option PyVal) : PyVal :=
  .dict [("main", .dict (optField "temp" temp ++ optField "humidity" humidity)),
         ("weather", .list [.dict (optField "description" desc)]),
         ("wind", .dict (optField "speed" speed))]

/-! ## Renderers and pipeline (lines 84-181) -/

/-- One `folium.Marker` of the map (lines 96-120): its location is
`[latitude, longitude]`, its popup concatenates title, category, a date line
only when the date is known (line 107), and the weather block only when the
weather fetch returned a snapshot (lines 99-105). -/
structure Marker where
  location : ℚ × ℚ
  title : String
  category : String
  dateInfo : Option String
  weather : Option WeatherSnapshot

/-- The saved `enhanced_satellite_map.html`: the initial view center
`[avg_lat, avg_lon]` (line 94) and the event markers.  (The fixed timestamp
marker of lines 123-128 carries only wall-clock text and is not modelled.) -/
structure MapArtifact where
  center : ℚ × ℚ
  markers : List Marker

/-- The saved `interactive_events_plot.html`: one point per row, hover and
color taken from the row (lines 139-148); the fixed styling is not modelled. -/
structure ChartArtifact where
  points : List EventRecord

/-- The two fixed-path output files; `none` = the file does not exist yet. -/
structure FS where
  mapFile : Option MapArtifact
  chartFile : Option ChartArtifact

/-- The external world one pipeline run interacts with: the two HTTP
dependencies, and fault injection for the two artifact writes (`some msg` =
the write raises `OSError msg`, `none` = it succeeds). -/
structure Env where
  satResp : String → FetchResp
  weatherResp : ℚ → ℚ → WeatherResp
  mapSaveError : Option String
  chartWriteError : Option String

/-- `create_interactive_map` (lines 84-131).  Empty DataFrame: print and
return, the filesystem untouched (lines 86-88).  Otherwise build the markers
(fetching weather per row, collecting those calls' diagnostics), then
`m.save(...)` — which may raise, in which case nothing is written. -/
def create_interactive_map (env : Env) (df : List EventRecord) (fs : FS) :
    Except PyErr (FS × List LogMsg) :=
  if df.isEmpty then .ok (fs, [.noEventsMap])
  else
    let avgLat := (df.map (·.latitude)).sum / (df.length : ℚ)
    let avgLon := (df.map (·.longitude)).sum / (df.length : ℚ)
    let fetched := df.map (fun e =>
      let wr := fetch_weather_data env.weatherResp e.latitude e.longitude
      (({ location := (e.latitude, e.longitude),
          title := e.title,
          category := e.category,
          dateInfo := if e.date = "Unknown" then none else some e.date,
          weather := wr.1 } : Marker), wr.2))
    match env.mapSaveError with
    | some m => .error (.osError m)
    | none =>
        .ok ({ fs with mapFile := some ⟨(avgLat, avgLon), fetched.map (·.1)⟩ },
             (fetched.map (·.2)).flatten ++ [.mapSaved])

/-- `create_plotly_chart` (lines 133-167).  Empty DataFrame: print and return,
the filesystem untouched (lines 135-137).  Otherwise `fig.write_html(...)`,
which may raise; `fig.show()` is a display-only step and is not modelled. -/
def create_plotly_chart (env : Env) (df : List EventRecord) (fs : FS) :
    Except PyErr (FS × List LogMsg) :=
  if df.isEmpty then .ok (fs, [.noEventsChart])
  else
    match env.chartWriteError with
    | some m => .error (.osError m)
    | none => .ok ({ fs with chartFile := some ⟨df⟩ }, [.chartSaved])

/-- `update_visualizations` (lines 169-181): fetch, then either render both
artifacts or print the no-events notice.  The function installs no exception
handler of its own, so a renderer exception propagates to the caller. -/
def update_visualizations (env : Env) (fs : FS) : Except PyErr (FS × List LogMsg) :=
  if (fetch_satellite_data env.satResp).events.isEmpty then
    .ok (fs, (fetch_satellite_data env.satResp).logs ++ [.noActiveEvents])
  else
    match create_interactive_map env (fetch_satellite_data env.satResp).events fs with
    | .error err => .error err
    | .ok (fs1, l1) =>
      match create_plotly_chart env (fetch_satellite_data env.satResp).events fs1 with
      | .error err => .error err
      | .ok (fs2, l2) =>
          .ok (fs2, (fetch_satellite_data env.satResp).logs
                ++ [.foundEvents (fetch_satellite_data env.satResp).events.length]
                ++ l1 ++ l2)

/-- How one iteration of the `while True` loop (lines 193-198) ends. -/
inductive IterOutcome where
  | continue'
  | cleanExit
  | crash (e : PyErr)
  deriving DecidableEq, Repr

/-- One iteration of the `while True` loop, at a tick where the job is due:
`schedule.run_pending()` calls `update_visualizations`.  The surrounding
`try` catches only `KeyboardInterrupt` (modelled by the `interrupted` flag,
it is not an `Exception` subclass), so any `PyErr` escaping the pipeline
leaves the loop as an uncaught crash. -/
def mainLoopIter (env : Env) (fs : FS) (interrupted : Bool) : IterOutcome × FS :=
  if interrupted then (.cleanExit, fs)
  else
    match update_visualizations env fs with
    | .ok (fs2, _) => (.continue', fs2)
    | .error e => (.crash e, fs)

/-! ## Refresh scheduler (lines 183-196)

The `schedule` library semantics for a single `every(30).minutes` job:
`run_pending()` runs the job iff `now >= next_run`, and a completed run sets
`next_run = now + interval`.  Time is in seconds; `time.sleep(1)` advances it
by one unit per loop iteration. -/

/-- 30 minutes, in the seconds of `time.sleep(1)`. -/
def refreshInterval : Nat := 30 * 60

/-- Scheduler state: the clock, the job's `next_run`, and the start times of
the pipeline executions so far, most recent first. -/
structure SchedState where
  time : Nat
  nextRun : Nat
  runs : List Nat
  deriving DecidableEq, Repr

/-- Lines 185-188: `update_visualizations()` runs once immediately (at time 0,
before the loop is ever entered), then the job is registered with
`next_run = now + interval`. -/
def schedStart : SchedState := ⟨0, refreshInterval, [0]⟩

/-- One iteration of the `while True` loop (lines 194-196):
`schedule.run_pending()` — run the job iff it is due, rescheduling it
`interval` after the moment it ran — then `time.sleep(1)`. -/
def schedStep (s : SchedState) : SchedState :=
  if s.nextRun ≤ s.time
  then ⟨s.time + 1, s.time + refreshInterval, s.time :: s.runs⟩
  else ⟨s.time + 1, s.nextRun, s.runs⟩

/-- The scheduler state after `n` loop iterations. -/
def schedAfter : Nat → SchedState
  | 0 => schedStart
  | n + 1 => schedStep (schedAfter n)

/-! ## Helper lemmas -/

/-- Exhaustive description of one loop iteration (lines 28-43): an event is
either skipped (no usable geometry), aborts the whole loop with `IndexError`
(usable geometry but a present-and-empty singular `geometry` field, line 42),
or yields exactly the row built from the first two coordinates of its first
effective geometry and the date of its singular `geometry` field. -/
theorem processEvent_spec (e : RawEvent) :
    (hasUsableGeometry e = false ∧ processEvent e = .ok none) ∨
    (∃ g gs c0 c1 rest,
      effectiveGeometries e = g :: gs ∧ g.coordinates = c0 :: c1 :: rest ∧
      hasUsableGeometry e = true ∧
      ((e.geometry = some [] ∧ processEvent e = .error .indexError) ∨
        processEvent e = .ok (some ⟨e.title, (e.categories.head?).getD "Unknown",
          correctedLongitude c0 c1, correctedLatitude c0 c1, dateOf e⟩))) := by
  cases hg : effectiveGeometries e with
  | nil =>
    refine .inl ⟨?_, ?_⟩
    · unfold hasUsableGeometry; rw [hg]
    · unfold processEvent; rw [hg]
  | cons g gs =>
    cases hc : g.coordinates with
    | nil =>
      refine .inl ⟨?_, ?_⟩
      · unfold hasUsableGeometry; rw [hg]; dsimp only; rw [hc]; rfl
      · unfold processEvent; rw [hg]; dsimp only; rw [hc]
    | cons c0 t =>
      cases t with
      | nil =>
        refine .inl ⟨?_, ?_⟩
        · unfold hasUsableGeometry; rw [hg]; dsimp only; rw [hc]; rfl
        · unfold processEvent; rw [hg]; dsimp only; rw [hc]
      | cons c1 rest =>
        refine .inr ⟨g, gs, c0, c1, rest, rfl, hc, ?_, ?_⟩
        · unfold hasUsableGeometry; rw [hg]; dsimp only; rw [hc]; simp
        · cases hgeom : e.geometry with
          | none =>
            refine .inr ?_
            have hd : extractDate e = .ok "Unknown" := by unfold extractDate; rw [hgeom]
            have hdate : dateOf e = "Unknown" := by unfold dateOf; rw [hgeom]
            unfold processEvent; rw [hg]; dsimp only; rw [hc]; dsimp only
            rw [hd, hdate]
          | some l =>
            cases l with
            | nil =>
              refine .inl ⟨rfl, ?_⟩
              have hd : extractDate e = .error .indexError := by
                unfold extractDate; rw [hgeom]
              unfold processEvent; rw [hg]; dsimp only; rw [hc]; dsimp only
              rw [hd]
            | cons g0 gl =>
              refine .inr ?_
              have hd : extractDate e = .ok (g0.date.getD "Unknown") := by
                unfold extractDate; rw [hgeom]
              have hdate : dateOf e = g0.date.getD "Unknown" := by
                unfold dateOf; rw [hgeom]
              unfold processEvent; rw [hg]; dsimp only; rw [hc]; dsimp only
              rw [hd, hdate]

/-- A kept event passed both guards and its row keeps the raw title. -/
theorem processEvent_ok_some (e : RawEvent) (r : EventRecord)
    (h : processEvent e = .ok (some r)) :
    hasUsableGeometry e = true ∧ r.title = e.title := by
  rcases processEvent_spec e with ⟨hu, hpe⟩ | ⟨g, gs, c0, c1, rest, hg, hc, hu, hcase⟩
  · rw [hpe] at h; simp at h
  · rcases hcase with ⟨hge, hpe⟩ | hpe
    · rw [hpe] at h; simp at h
    · rw [hpe] at h
      simp only [Except.ok.injEq, Option.some.injEq] at h
      subst h
      exact ⟨hu, rfl⟩

/-- A skipped event has no usable geometry. -/
theorem processEvent_ok_none (e : RawEvent)
    (h : processEvent e = .ok none) : hasUsableGeometry e = false := by
  rcases processEvent_spec e with ⟨hu, hpe⟩ | ⟨g, gs, c0, c1, rest, hg, hc, hu, hcase⟩
  · exact hu
  · rcases hcase with ⟨hge, hpe⟩ | hpe
    · rw [hpe] at h; simp at h
    · rw [hpe] at h; simp at h

/-! ## Claim C1 -/

/-- Claim C1, counterexample.  A feed pair `(200, 200)` is stored as
`longitude = 200`, `latitude = 200` — outside `[-180, 180]` / `[-90, 90]` —
and the wrong-order pair `(10, 95)` (a latitude 10 with a longitude 95) is
stored as `(10, 10)`, not swapped to `(95, 10)`. -/
theorem c1_range_counterexample :
    (fetch_satellite_data (fun _ => .ok [⟨"E200", [], [⟨[200, 200], none⟩], none⟩,
                                         ⟨"ESwap", [], [⟨[10, 95], none⟩], none⟩])).events =
      [⟨"E200", "Unknown", 200, 200, "Unknown"⟩,
       ⟨"ESwap", "Unknown", 10, 10, "Unknown"⟩] ∧
    ¬ ((200 : ℚ) ≤ 180) ∧
    ¬ ((200 : ℚ) ≤ 90) ∧
    ((10 : ℚ), (10 : ℚ)) ≠ ((95 : ℚ), (10 : ℚ)) := by
  refine ⟨rfl, by norm_num, by norm_num, by norm_num⟩

/-- Claim C1, amended: a stored row's coordinates come from the first two raw
coordinates via the per-component heuristic of lines 34-35; the stored
longitude is guaranteed inside `[-180, 180]` only when at least one raw
component has magnitude `≤ 180` (likewise latitude with `90`), and an
out-of-range component is replaced by the other component rather than the
pair being swapped. -/
theorem c1_heuristic_ranges (e : RawEvent) (r : EventRecord)
    (h : processEvent e = .ok (some r)) :
    ∃ c0 c1 rest g gs,
      effectiveGeometries e = g :: gs ∧ g.coordinates = c0 :: c1 :: rest ∧
      r.longitude = correctedLongitude c0 c1 ∧
      r.latitude = correctedLatitude c0 c1 ∧
      ((|c0| ≤ 180 ∨ |c1| ≤ 180) → |r.longitude| ≤ 180) ∧
      ((|c0| ≤ 90 ∨ |c1| ≤ 90) → |r.latitude| ≤ 90) := by
  rcases processEvent_spec e with ⟨hu, hpe⟩ | ⟨g, gs, c0, c1, rest, hg, hc, hu, hcase⟩
  · rw [hpe] at h; simp at h
  · rcases hcase with ⟨hge, hpe⟩ | hpe
    · rw [hpe] at h; simp at h
    · rw [hpe] at h
      simp only [Except.ok.injEq, Option.some.injEq] at h
      subst h
      refine ⟨c0, c1, rest, g, gs, hg, hc, rfl, rfl, ?_, ?_⟩
      · intro hdis
        show |correctedLongitude c0 c1| ≤ 180
        unfold correctedLongitude
        split_ifs with h1
        · exact h1
        · rcases hdis with h2 | h2
          · exact absurd h2 h1
          · exact h2
      · intro hdis
        show |correctedLatitude c0 c1| ≤ 90
        unfold correctedLatitude
        split_ifs with h1
        · exact h1
        · rcases hdis with h2 | h2
          · exact h2
          · exact absurd h2 h1

/-- Claim C1, witness: the spec's own scenario pair `(95, 10)` is stored as
`longitude = 95`, `latitude = 10`, inside both ranges. -/
theorem c1_heuristic_ranges_witness :
    processEvent ⟨"W", [], [⟨[95, 10], none⟩], none⟩ =
      .ok (some ⟨"W", "Unknown", 95, 10, "Unknown"⟩) ∧
    (∃ c0 c1 rest g gs,
      effectiveGeometries ⟨"W", [], [⟨[95, 10], none⟩], none⟩ = g :: gs ∧
      g.coordinates = c0 :: c1 :: rest ∧
      (⟨"W", "Unknown", 95, 10, "Unknown"⟩ : EventRecord).longitude = correctedLongitude c0 c1 ∧
      (⟨"W", "Unknown", 95, 10, "Unknown"⟩ : EventRecord).latitude = correctedLatitude c0 c1 ∧
      ((|c0| ≤ 180 ∨ |c1| ≤ 180) →
        |(⟨"W", "Unknown", 95, 10, "Unknown"⟩ : EventRecord).longitude| ≤ 180) ∧
      ((|c0| ≤ 90 ∨ |c1| ≤ 90) →
        |(⟨"W", "Unknown", 95, 10, "Unknown"⟩ : EventRecord).latitude| ≤ 90)) :=
  ⟨rfl, c1_heuristic_ranges ⟨"W", [], [⟨[95, 10], none⟩], none⟩
    ⟨"W", "Unknown", 95, 10, "Unknown"⟩ rfl⟩

/-! ## Claim C3 -/

/-- Claim C3: the order-correction heuristic leaves a pair with first
component in `[-180, 180]` and second component in `[-90, 90]` unchanged as
`(longitude, latitude)`; the bounds are inclusive, so magnitudes of exactly
180 and 90 count as valid and are not swapped. -/
theorem c3_corrected_identity (c0 c1 : ℚ)
    (h1 : -180 ≤ c0) (h2 : c0 ≤ 180) (h3 : -90 ≤ c1) (h4 : c1 ≤ 90) :
    correctedLongitude c0 c1 = c0 ∧ correctedLatitude c0 c1 = c1 := by
  constructor
  · unfold correctedLongitude
    rw [if_pos (abs_le.mpr ⟨h1, h2⟩)]
  · unfold correctedLatitude
    rw [if_pos (abs_le.mpr ⟨h3, h4⟩)]

/-- Claim C3, witness at the boundary magnitudes 180 and 90. -/
theorem c3_corrected_identity_witness :
    (-180 ≤ (180 : ℚ) ∧ (180 : ℚ) ≤ 180 ∧ -90 ≤ (90 : ℚ) ∧ (90 : ℚ) ≤ 90) ∧
    correctedLongitude 180 90 = 180 ∧ correctedLatitude 180 90 = 90 :=
  ⟨⟨by norm_num, by norm_num, by norm_num, by norm_num⟩,
   (c3_corrected_identity 180 90 (by norm_num) (by norm_num) (by norm_num) (by norm_num)).1,
   (c3_corrected_identity 180 90 (by norm_num) (by norm_num) (by norm_num) (by norm_num)).2⟩

/-! ## Claim C9 -/

/-- Claim C9, counterexample: an event whose (plural) `geometries` entry
carries the date `2024-01-01` but that has no singular `geometry` key is
stored with date `"Unknown"`, because line 42 consults only the `geometry`
key. -/
theorem c9_date_counterexample :
    processEvent ⟨"D", [], [⟨[10, 20], some "2024-01-01"⟩], none⟩ =
      .ok (some ⟨"D", "Unknown", 10, 20, "Unknown"⟩) ∧
    (⟨"D", [], [⟨[10, 20], some "2024-01-01"⟩], none⟩ : RawEvent).geometries =
      [⟨[10, 20], some "2024-01-01"⟩] ∧
    ("Unknown" : String) ≠ "2024-01-01" :=
  ⟨rfl, rfl, by decide⟩

/-- Claim C9, amended: the stored date of every kept row equals the date of
the first element of the event's singular `geometry` field when that field is
present, and `"Unknown"` when it is absent or dateless — dates in the plural
`geometries` field are never consulted. -/
theorem c9_date_from_geometry_field (e : RawEvent) (r : EventRecord)
    (h : processEvent e = .ok (some r)) : r.date = dateOf e := by
  rcases processEvent_spec e with ⟨hu, hpe⟩ | ⟨g, gs, c0, c1, rest, hg, hc, hu, hcase⟩
  · rw [hpe] at h; simp at h
  · rcases hcase with ⟨hge, hpe⟩ | hpe
    · rw [hpe] at h; simp at h
    · rw [hpe] at h
      simp only [Except.ok.injEq, Option.some.injEq] at h
      subst h
      rfl

/-! ## Claim C2 -/

/-- Claim C2, counterexample: one event with a non-empty geometry whose
coordinate list has a single element is a geometry-bearing event, yet
normalization drops it (line 33's `len(coords) >= 2` guard), so the output
length 0 differs from the geometry-bearing count 1. -/
theorem c2_length_counterexample :
    processEvents [⟨"S", [], [⟨[5], none⟩], none⟩] = .ok [] ∧
    [(⟨"S", [], [⟨[5], none⟩], none⟩ : RawEvent)].countP (fun e => hasGeometry e) = 1 ∧
    ([] : List EventRecord).length ≠ 1 :=
  ⟨rfl, rfl, by decide⟩

/-- Claim C2, amended: whenever the normalization loop completes without
raising, it produces exactly one row, in encounter order, per input event
whose effective geometry list is non-empty *and* whose first geometry carries
at least two coordinates; geometry-bearing events with fewer than two
coordinates are silently dropped. -/
theorem c2_normalize_shape (evts : List RawEvent) (l : List EventRecord)
    (h : processEvents evts = .ok l) :
    l.length = (evts.filter hasUsableGeometry).length ∧
    l.map EventRecord.title = (evts.filter hasUsableGeometry).map RawEvent.title := by
  induction evts generalizing l with
  | nil =>
    unfold processEvents at h
    simp only [Except.ok.injEq] at h
    subst h
    simp
  | cons e rest ih =>
    unfold processEvents at h
    cases hpe : processEvent e with
    | error err => rw [hpe] at h; simp at h
    | ok o =>
      rw [hpe] at h
      cases o with
      | none =>
        dsimp only at h
        have hu := processEvent_ok_none e hpe
        obtain ⟨ih1, ih2⟩ := ih _ h
        simp [List.filter_cons, hu, ih1, ih2]
      | some r0 =>
        dsimp only at h
        cases hr : processEvents rest with
        | error err => rw [hr] at h; simp at h
        | ok l2 =>
          rw [hr] at h
          simp only [Except.ok.injEq] at h
          subst h
          obtain ⟨hu, ht⟩ := processEvent_ok_some e r0 hpe
          obtain ⟨ih1, ih2⟩ := ih _ hr
          simp [List.filter_cons, hu, ih1, ih2, ht]

/-- The raw events of claim C2's witness: two usable events around one
geometry-less event. -/
def c2RawEvents : List RawEvent :=
  [⟨"A", [], [⟨[1, 2], none⟩], none⟩,
   ⟨"B", [], [], none⟩,
   ⟨"C", [], [⟨[3, 4], none⟩], none⟩]

/-- The rows claim C2's witness expects. -/
def c2Rows : List EventRecord :=
  [⟨"A", "Unknown", 1, 2, "Unknown"⟩, ⟨"C", "Unknown", 3, 4, "Unknown"⟩]

/-- Claim C2, witness: two usable events and one geometry-less event produce
two rows, in encounter order. -/
theorem c2_normalize_shape_witness :
    processEvents c2RawEvents = .ok c2Rows ∧
    c2Rows.length = (c2RawEvents.filter hasUsableGeometry).length ∧
    c2Rows.map EventRecord.title = (c2RawEvents.filter hasUsableGeometry).map RawEvent.title :=
  ⟨rfl,
   (c2_normalize_shape c2RawEvents c2Rows rfl).1,
   (c2_normalize_shape c2RawEvents c2Rows rfl).2⟩

/-! ## Claim C10 -/

/-- The requests issued by the status loop on a single-status list. -/
theorem satLoop_single (resp : String → FetchResp) (s : String) :
    (satLoop resp [s]).1 = [⟨s, 50⟩] := by
  unfold satLoop
  cases hr : resp s with
  | transportError m => rfl
  | ok raws =>
    dsimp only
    by_cases he : raws.isEmpty
    · simp [he, satLoop]
    · simp only [he, if_false, Bool.false_eq_true]
      cases hp : processEvents raws with
      | error err => rfl
      | ok evts =>
        by_cases hev : evts.isEmpty
        · simp [hev, satLoop]
        · simp [hev]

/-- The requests issued by the status loop on a two-status list: the first
status always, the second only when the first yielded nothing. -/
theorem satLoop_pair (resp : String → FetchResp) (s1 s2 : String) :
    (satLoop resp [s1, s2]).1 = [⟨s1, 50⟩] ∨
    (satLoop resp [s1, s2]).1 = [⟨s1, 50⟩, ⟨s2, 50⟩] := by
  unfold satLoop
  cases hr : resp s1 with
  | transportError m => exact .inl rfl
  | ok raws =>
    dsimp only
    by_cases he : raws.isEmpty
    · refine .inr ?_
      simp [he, satLoop_single]
    · simp only [he, if_false, Bool.false_eq_true]
      cases hp : processEvents raws with
      | error err => exact .inl rfl
      | ok evts =>
        by_cases hev : evts.isEmpty
        · refine .inr ?_
          simp [hev, satLoop_single]
        · refine .inl ?_
          simp [hev]

/-- `fetch_satellite_data` reports exactly the requests the status loop made. -/
theorem fetch_requests_eq (resp : String → FetchResp) :
    (fetch_satellite_data resp).requests = (satLoop resp ["open", "all"]).1 := by
  unfold fetch_satellite_data
  rcases h : satLoop resp ["open", "all"] with ⟨reqs, out⟩
  rcases out with err | opt
  · cases err <;> rfl
  · cases opt <;> rfl

/-- Claim C10: every request `fetch_satellite_data` issues carries
`limit = 50`; the first request is the `"open"` one, and the `"all"` fallback
request — when issued — also carries `limit = 50`. -/
theorem c10_limit_on_both_requests (resp : String → FetchResp) :
    ((fetch_satellite_data resp).requests.all fun r => r.limit == 50) = true ∧
    (fetch_satellite_data resp).requests.head? = some ⟨"open", 50⟩ ∧
    ((fetch_satellite_data resp).requests = [⟨"open", 50⟩] ∨
      (fetch_satellite_data resp).requests = [⟨"open", 50⟩, ⟨"all", 50⟩]) := by
  rw [fetch_requests_eq resp]
  rcases satLoop_pair resp "open" "all" with h | h <;> rw [h]
  · exact ⟨rfl, rfl, .inl rfl⟩
  · exact ⟨rfl, rfl, .inr rfl⟩

/-! ## Claim C5 -/

/-- Invariant of the scheduler loop: there is always a most recent run, the
job is never due again earlier than `refreshInterval` after it, the run
history descends in steps of at least `refreshInterval`, and the oldest run
is the immediate startup run at time 0. -/
def SchedInv (s : SchedState) : Prop :=
  (∃ r rs, s.runs = r :: rs ∧ r + refreshInterval ≤ s.nextRun) ∧
  s.runs.getLast? = some 0 ∧
  List.Chain' (fun a b => b + refreshInterval ≤ a) s.runs

theorem schedInv_start : SchedInv schedStart :=
  ⟨⟨0, [], rfl, by simp [schedStart]⟩, rfl, by simp [schedStart]⟩

theorem schedInv_step (s : SchedState) (h : SchedInv s) : SchedInv (schedStep s) := by
  obtain ⟨⟨r, rs, hruns, hnr⟩, hlast, hchain⟩ := h
  unfold schedStep
  split_ifs with hle
  · refine ⟨⟨s.time, s.runs, rfl, le_refl _⟩, ?_, ?_⟩
    · show (s.time :: s.runs).getLast? = some 0
      rw [hruns, List.getLast?_cons_cons, ← hruns]
      exact hlast
    · show List.Chain' _ (s.time :: s.runs)
      rw [hruns]
      rw [hruns] at hchain
      exact List.chain'_cons.mpr ⟨le_trans hnr hle, hchain⟩
  · exact ⟨⟨r, rs, hruns, hnr⟩, hlast, hchain⟩

theorem schedInv_after (n : Nat) : SchedInv (schedAfter n) := by
  induction n with
  | zero => exact schedInv_start
  | succ n ih => exact schedInv_step _ ih

theorem schedAfter_time (n : Nat) : (schedAfter n).time = n := by
  induction n with
  | zero => rfl
  | succ n ih =>
    show (schedStep (schedAfter n)).time = n + 1
    unfold schedStep
    split_ifs <;> simp [ih]

/-- Claim C5: the clock advances by exactly one sleep unit per loop
iteration; at startup exactly one run (at time 0) has happened before any
wait; the startup run remains the oldest entry of the run history; and
consecutive runs are always at least `refreshInterval = 30 * 60` time units
apart, so the pipeline never runs more frequently than the fixed interval. -/
theorem c5_scheduler_timing (n : Nat) :
    (schedAfter n).time = n ∧
    (schedAfter 0).runs = [0] ∧
    (schedAfter n).runs.getLast? = some 0 ∧
    List.Chain' (fun a b => b + refreshInterval ≤ a) (schedAfter n).runs :=
  ⟨schedAfter_time n, rfl, (schedInv_after n).2.1, (schedInv_after n).2.2⟩

/-! ## Claim C4 -/

/-- The map renderer only raises when the injected `m.save` failure fires. -/
theorem create_map_ok (env : Env) (df : List EventRecord) (fs : FS)
    (h : env.mapSaveError = none) :
    ∃ v, create_interactive_map env df fs = .ok v := by
  unfold create_interactive_map
  split_ifs with hd
  · exact ⟨_, rfl⟩
  · simp only [h]
    exact ⟨_, rfl⟩

/-- The chart renderer only raises when the injected write failure fires. -/
theorem create_chart_ok (env : Env) (df : List EventRecord) (fs : FS)
    (h : env.chartWriteError = none) :
    ∃ v, create_plotly_chart env df fs = .ok v := by
  unfold create_plotly_chart
  split_ifs with hd
  · exact ⟨_, rfl⟩
  · simp only [h]
    exact ⟨_, rfl⟩

/-- With both artifact writes succeeding, a pipeline run never raises —
whatever the two HTTP dependencies do, since both fetch adapters catch their
own failures. -/
theorem update_visualizations_ok (env : Env) (fs : FS)
    (h1 : env.mapSaveError = none) (h2 : env.chartWriteError = none) :
    ∃ v, update_visualizations env fs = .ok v := by
  unfold update_visualizations
  split_ifs with he
  · exact ⟨_, rfl⟩
  · obtain ⟨⟨fs1, l1⟩, hm⟩ :=
      create_map_ok env (fetch_satellite_data env.satResp).events fs h1
    rw [hm]
    dsimp only
    obtain ⟨⟨fs2, l2⟩, hc⟩ :=
      create_chart_ok env (fetch_satellite_data env.satResp).events fs1 h2
    rw [hc]
    exact ⟨_, rfl⟩

/-- A filesystem with no artifacts yet. -/
def fs0 : FS := ⟨none, none⟩

/-- A world where both HTTP dependencies fail at transport level but the
artifact writes would succeed. -/
def envDown : Env :=
  ⟨fun _ => .transportError "net down", fun _ _ => .transportError "net down",
   none, none⟩

/-- A world with one good event whose map artifact write raises `OSError`. -/
def envBad : Env :=
  ⟨fun _ => .ok [⟨"G", ["Wildfires"], [⟨[-118, 34], none⟩], none⟩],
   fun _ _ => .transportError "down", some "disk full", none⟩

/-- Claim C4, counterexample: a failure inside the pipeline run — here the
map renderer's artifact write raising `OSError` — is *not* caught: the loop
iteration ends in an uncaught crash, terminating the loop without any
external interrupt. -/
theorem c4_crash_counterexample :
    (mainLoopIter envBad fs0 false).1 = .crash (.osError "disk full") ∧
    IterOutcome.crash (.osError "disk full") ≠ .continue' ∧
    IterOutcome.crash (.osError "disk full") ≠ .cleanExit :=
  ⟨rfl, by decide, by decide⟩

/-- Claim C4, amended: failures inside the two fetch adapters are caught and
logged there and never terminate the loop — whenever the renderers' artifact
writes succeed, every iteration continues regardless of what the HTTP
dependencies do — and the external interrupt ends the loop cleanly; but an
exception raised by a renderer propagates and terminates the loop. -/
theorem c4_fetch_failures_contained (env : Env) (fs : FS)
    (h1 : env.mapSaveError = none) (h2 : env.chartWriteError = none) :
    (mainLoopIter env fs false).1 = .continue' ∧
    (mainLoopIter env fs true).1 = .cleanExit := by
  constructor
  · obtain ⟨⟨fs2, logs⟩, hu⟩ := update_visualizations_ok env fs h1 h2
    simp [mainLoopIter, hu]
  · simp [mainLoopIter]

/-- Claim C4, witness: with every HTTP dependency down (and the writes fine)
the loop iteration continues, and an interrupt exits cleanly. -/
theorem c4_fetch_failures_contained_witness :
    envDown.mapSaveError = none ∧ envDown.chartWriteError = none ∧
    (mainLoopIter envDown fs0 false).1 = .continue' ∧
    (mainLoopIter envDown fs0 true).1 = .cleanExit :=
  ⟨rfl, rfl, (c4_fetch_failures_contained envDown fs0 rfl rfl).1,
   (c4_fetch_failures_contained envDown fs0 rfl rfl).2⟩

/-! ## Claim C6 -/

/-- Claim C6, counterexample: a malformed payload (a JSON array where an
object is expected) is handled by the generic `Exception` handler, whose
diagnostic does not include the queried coordinate. -/
theorem c6_no_coord_counterexample :
    weatherBody (.list []) = .error .attributeError ∧
    fetch_weather_data (fun _ _ => .ok (.list [])) 10 20 =
      (none, [.unexpectedWeatherError "AttributeError"]) ∧
    mentionsCoord (.unexpectedWeatherError "AttributeError") 10 20 = false :=
  ⟨rfl, rfl, rfl⟩

/-- Claim C6, amended: the weather request carries a timeout of 10;
`fetch_weather_data` returns absent without raising on any transport failure
or malformed payload, logging exactly one diagnostic — the transport-failure
diagnostic includes the queried coordinate, while the malformed-payload one
is the generic handler's message. -/
theorem c6_weather_failure_absent (wresp : ℚ → ℚ → WeatherResp) (lat lon : ℚ) :
    (weatherRequestFor lat lon).timeout = 10 ∧
    (∀ m, wresp lat lon = .transportError m →
      fetch_weather_data wresp lat lon = (none, [.weatherApiError lat lon m]) ∧
      mentionsCoord (.weatherApiError lat lon m) lat lon = true) ∧
    (∀ data err, wresp lat lon = .ok data → weatherBody data = .error err →
      (fetch_weather_data wresp lat lon).1 = none ∧
      (fetch_weather_data wresp lat lon).2.length = 1) := by
  refine ⟨rfl, ?_, ?_⟩
  · intro m hm
    refine ⟨?_, ?_⟩
    · unfold fetch_weather_data
      rw [hm]
    · simp [mentionsCoord]
  · intro data err hd herr
    unfold fetch_weather_data
    rw [hd]
    dsimp only
    rw [herr]
    cases err <;> exact ⟨rfl, rfl⟩

/-- Claim C6, witness: a concrete transport failure at coordinate `(1, 2)`
yields absent plus a coordinate-bearing diagnostic, under a timeout of 10. -/
theorem c6_weather_failure_absent_witness :
    (weatherRequestFor 1 2).timeout = 10 ∧
    fetch_weather_data (fun _ _ => .transportError "timed out") 1 2 =
      (none, [.weatherApiError 1 2 "timed out"]) ∧
    mentionsCoord (.weatherApiError 1 2 "timed out") 1 2 = true :=
  ⟨(c6_weather_failure_absent (fun _ _ => .transportError "timed out") 1 2).1,
   ((c6_weather_failure_absent (fun _ _ => .transportError "timed out") 1 2).2.1
     "timed out" rfl).1,
   ((c6_weather_failure_absent (fun _ _ => .transportError "timed out") 1 2).2.1
     "timed out" rfl).2⟩

/-! ## Claim C7 -/

/-- Claim C7, counterexample: a successful response whose `weather` key is
present but holds an empty list — so the weather-description field is missing
— makes `[0]` raise `IndexError`, and the whole call returns absent instead
of substituting the sentinel. -/
theorem c7_empty_weather_counterexample :
    weatherBody (.dict [("weather", .list [])]) = .error .indexError ∧
    fetch_weather_data (fun _ _ => .ok (.dict [("weather", .list [])])) 3 4 =
      (none, [.unexpectedWeatherError "IndexError"]) :=
  ⟨rfl, rfl⟩

/-- Claim C7, amended: each individually *absent* field among temperature,
humidity, weather description and wind speed (including absent `main`,
`weather` or `wind` containers) is substituted with the sentinel `"N/A"` and
a snapshot is still returned; but a present-and-empty `weather` list raises
and makes the call return absent instead. -/
theorem c7_missing_fields_na (temp humidity desc speed : Option PyVal) :
    weatherBody (mkWeatherPayload temp humidity desc speed) =
      .ok ⟨temp.getD naStr, humidity.getD naStr, desc.getD naStr, speed.getD naStr⟩ ∧
    weatherBody (.dict []) = .ok ⟨naStr, naStr, naStr, naStr⟩ := by
  refine ⟨?_, rfl⟩
  cases temp <;> cases humidity <;> cases desc <;> cases speed <;> rfl

/-! ## Claim C8 -/

/-- Claim C8: on an empty event collection both renderers are no-ops that
only log a notice — the filesystem, in particular any previously written
artifacts, is returned unchanged — and when both status queries yield zero
events the whole pipeline run writes nothing and logs the no-events
condition twice (once in the fetch adapter, once in the pipeline). -/
theorem c8_empty_collection_noop (env : Env) (fs : FS)
    (h1 : env.satResp "open" = .ok []) (h2 : env.satResp "all" = .ok []) :
    create_interactive_map env [] fs = .ok (fs, [.noEventsMap]) ∧
    create_plotly_chart env [] fs = .ok (fs, [.noEventsChart]) ∧
    update_visualizations env fs = .ok (fs, [.noEonetEvents, .noActiveEvents]) := by
  refine ⟨rfl, rfl, ?_⟩
  have hsl : satLoop env.satResp ["open", "all"] =
      ([⟨"open", 50⟩, ⟨"all", 50⟩], .ok none) := by
    simp [satLoop, h1, h2]
  have hf : fetch_satellite_data env.satResp =
      ⟨[], [.noEonetEvents], [⟨"open", 50⟩, ⟨"all", 50⟩]⟩ := by
    simp [fetch_satellite_data, hsl]
  unfold update_visualizations
  rw [hf]
  rfl

/-- A previously written pair of artifacts. -/
def fsPrev : FS := ⟨some ⟨(0, 0), []⟩, some ⟨[]⟩⟩

/-- A world whose events feed returns zero events for every status. -/
def envNoEvents : Env :=
  ⟨fun _ => .ok [], fun _ _ => .transportError "x", none, none⟩

/-- Claim C8, witness: with zero events from both status queries, a pipeline
run leaves previously written artifacts exactly as they were and logs the
no-events condition. -/
theorem c8_empty_collection_noop_witness :
    update_visualizations envNoEvents fsPrev =
      .ok (fsPrev, [.noEonetEvents, .noActiveEvents]) :=
  (c8_empty_collection_noop envNoEvents fsPrev rfl rfl).2.2

/-- Claim C9, witness: an event carrying its date in the singular `geometry`
field is stored with exactly that date. -/
theorem c9_date_from_geometry_field_witness :
    processEvent ⟨"V", [], [], some [⟨[1, 2], some "2025-02-03"⟩]⟩ =
      .ok (some ⟨"V", "Unknown", 1, 2, "2025-02-03"⟩) ∧
    ("2025-02-03" : String) = dateOf ⟨"V", [], [], some [⟨[1, 2], some "2025-02-03"⟩]⟩ :=
  ⟨rfl, c9_date_from_geometry_field ⟨"V", [], [], some [⟨[1, 2], some "2025-02-03"⟩]⟩
    ⟨"V", "Unknown", 1, 2, "2025-02-03"⟩ rfl⟩

end SatViz
